import Mathlib

/-!
Verification of the resource-planning sheet-import pipeline
(`src/main.py` and `cloud_functions/resource_planning/main.py`).

The Python code is shallowly embedded: pure computations become Lean
functions, the external services (Drive export, GCS download/parse,
BigQuery load) become oracle functions passed as arguments, and Python
exceptions become `Except` values.  Machine-level concerns (pandas
internals, HTTP transport) are abstracted at exactly the call boundaries
the source uses.
-/

namespace ResourcePlanning

/-- Constant `MAX_RETRIES` from `src/main.py`. -/
def MAX_RETRIES : Nat := 5

/-- Constant `RETRY_DELAY_BASE` from `src/main.py` (seconds, multiplied by
`2 ^ attempt` for exponential backoff). -/
def RETRY_DELAY_BASE : Nat := 3

/-- Outcome of one attempt of the body of the retry loop in
`fetch_sheet_with_retry` / `export_sheet_to_gcs_with_retry`: the request
either succeeds with a value, raises `googleapiclient.errors.HttpError`
with a status code, or raises some other exception. -/
inductive AttemptOutcome (α : Type) where
  | success (r : α)
  | httpError (status : Nat)
  | otherError (msg : String)
deriving DecidableEq

/-- The exception finally raised by the retry wrappers. -/
inductive FetchErr where
  | http (status : Nat)
  | other (msg : String)
deriving DecidableEq

/-- The list `[429, 500, 502, 503, 504]` of retryable HTTP statuses from
the `except HttpError` branches. -/
def retryableStatuses : List Nat := [429, 500, 502, 503, 504]

/-- An attempt outcome that the source code retries after: a retryable
HTTP error, or any non-`HttpError` exception.  A success is not retried,
and a non-retryable `HttpError` is re-raised at once. -/
def isRetryable {α : Type} : AttemptOutcome α → Bool
  | .success _ => false
  | .httpError s => retryableStatuses.contains s
  | .otherError _ => true

/-- The exception object corresponding to a failed attempt
(`last_exception` in the source). -/
def errOf {α : Type} : AttemptOutcome α → FetchErr
  | .success _ => .other ""
  | .httpError s => .http s
  | .otherError m => .other m

/-- After the `for attempt in range(MAX_RETRIES)` loop falls through, the
source raises `last_exception` if one was recorded; with no recorded
exception the Python function returns `None` (modelled `.ok none`). -/
def exhaustResult {α : Type} : Option FetchErr → Except FetchErr (Option α)
  | some e => .error e
  | none => .ok none

/-- The retry loop shared by `fetch_sheet_with_retry` and
`export_sheet_to_gcs_with_retry`.  `fuel` is the number of remaining
iterations of `for attempt in range(MAX_RETRIES)`; `attempt` is the
current 0-indexed attempt; `last` is `last_exception`; `waits` records,
in order, each `time.sleep(wait_time)` duration performed so far.
Returns the result (`.ok (some r)` on success, `.error e` when an
exception escapes, `.ok none` on loop fall-through) paired with the full
list of sleep durations. -/
def retryGo {α : Type} (outcomes : Nat → AttemptOutcome α) :
    Nat → Nat → Option FetchErr → List Nat → Except FetchErr (Option α) × List Nat
  | 0, _, last, waits => (exhaustResult last, waits)
  | fuel + 1, attempt, _, waits =>
    match outcomes attempt with
    | .success r => (.ok (some r), waits)
    | .httpError s =>
      if retryableStatuses.contains s then
        retryGo outcomes fuel (attempt + 1) (some (.http s))
          (waits ++ [RETRY_DELAY_BASE * 2 ^ attempt])
      else
        (.error (.http s), waits)
    | .otherError m =>
      if attempt < MAX_RETRIES - 1 then
        retryGo outcomes fuel (attempt + 1) (some (.other m))
          (waits ++ [RETRY_DELAY_BASE * 2 ^ attempt])
      else
        retryGo outcomes fuel (attempt + 1) (some (.other m)) waits

/-- `fetch_sheet_with_retry` from `src/main.py`: runs the attempt oracle
under the retry loop, starting at attempt 0 with no recorded exception. -/
def fetch_sheet_with_retry {α : Type} (outcomes : Nat → AttemptOutcome α) :
    Except FetchErr (Option α) × List Nat :=
  retryGo outcomes MAX_RETRIES 0 none []

/-- `export_sheet_to_gcs_with_retry` from `src/main.py`: identical retry
skeleton around the Drive-export body (the body is the oracle). -/
def export_sheet_to_gcs_with_retry {α : Type} (outcomes : Nat → AttemptOutcome α) :
    Except FetchErr (Option α) × List Nat :=
  retryGo outcomes MAX_RETRIES 0 none []

lemma retryGo_success {α : Type} (outcomes : Nat → AttemptOutcome α) :
    ∀ (k fuel attempt : Nat) (last : Option FetchErr) (waits : List Nat) (r : α),
      k < fuel →
      (∀ i, i < k → isRetryable (outcomes (attempt + i)) = true) →
      outcomes (attempt + k) = .success r →
      (retryGo outcomes fuel attempt last waits).1 = .ok (some r) := by
  intro k
  induction k with
  | zero =>
    intro fuel attempt last waits r hk _ hsucc
    match fuel, hk with
    | fuel + 1, _ =>
      simp only [Nat.add_zero] at hsucc
      simp [retryGo, hsucc]
  | succ k ih =>
    intro fuel attempt last waits r hk hret hsucc
    match fuel, hk with
    | fuel + 1, hk =>
      have h0 : isRetryable (outcomes (attempt + 0)) = true := hret 0 (Nat.succ_pos k)
      simp only [Nat.add_zero] at h0
      have hk' : k < fuel := Nat.lt_of_succ_lt_succ hk
      have hret' : ∀ i, i < k → isRetryable (outcomes (attempt + 1 + i)) = true := by
        intro i hi
        have := hret (i + 1) (Nat.succ_lt_succ hi)
        have harg : attempt + (i + 1) = attempt + 1 + i := by omega
        rwa [harg] at this
      have hsucc' : outcomes (attempt + 1 + k) = .success r := by
        have harg : attempt + (k + 1) = attempt + 1 + k := by omega
        rwa [harg] at hsucc
      cases hoc : outcomes attempt with
      | success r' => rw [hoc] at h0; simp [isRetryable] at h0
      | httpError s =>
        rw [hoc] at h0
        simp only [isRetryable] at h0
        simp only [retryGo, hoc, h0, if_true]
        exact ih fuel (attempt + 1) _ _ r hk' hret' hsucc'
      | otherError m =>
        simp only [retryGo, hoc]
        split
        · exact ih fuel (attempt + 1) _ _ r hk' hret' hsucc'
        · exact ih fuel (attempt + 1) _ _ r hk' hret' hsucc'

lemma retryGo_exhaust {α : Type} (outcomes : Nat → AttemptOutcome α) :
    ∀ (fuel attempt : Nat) (last : Option FetchErr) (waits : List Nat),
      (∀ i, i < fuel → isRetryable (outcomes (attempt + i)) = true) →
      (retryGo outcomes fuel attempt last waits).1 =
        exhaustResult (if fuel = 0 then last
          else some (errOf (outcomes (attempt + (fuel - 1))))) := by
  intro fuel
  induction fuel with
  | zero => intro attempt last waits _; simp [retryGo]
  | succ fuel ih =>
    intro attempt last waits hret
    have h0 : isRetryable (outcomes (attempt + 0)) = true := hret 0 (Nat.succ_pos fuel)
    simp only [Nat.add_zero] at h0
    have hret' : ∀ i, i < fuel → isRetryable (outcomes (attempt + 1 + i)) = true := by
      intro i hi
      have := hret (i + 1) (Nat.succ_lt_succ hi)
      have harg : attempt + (i + 1) = attempt + 1 + i := by omega
      rwa [harg] at this
    cases hoc : outcomes attempt with
    | success r => rw [hoc] at h0; simp [isRetryable] at h0
    | httpError s =>
      rw [hoc] at h0
      simp only [isRetryable] at h0
      simp only [retryGo, hoc, h0, if_true]
      rw [ih (attempt + 1) _ _ hret']
      cases fuel with
      | zero => simp [exhaustResult, hoc, errOf]
      | succ f =>
        have harg : attempt + 1 + (f + 1 - 1) = attempt + (f + 1 + 1 - 1) := by omega
        rw [harg]
        simp
    | otherError m =>
      simp only [retryGo, hoc]
      split
      all_goals
        rw [ih (attempt + 1) _ _ hret']
        cases fuel with
        | zero => simp [exhaustResult, hoc, errOf]
        | succ f =>
          have harg : attempt + 1 + (f + 1 - 1) = attempt + (f + 1 + 1 - 1) := by omega
          rw [harg]
          simp

lemma retryGo_nonretryable {α : Type} (outcomes : Nat → AttemptOutcome α) :
    ∀ (j fuel attempt : Nat) (last : Option FetchErr) (waits : List Nat) (s : Nat),
      j < fuel →
      (∀ i, i < j → isRetryable (outcomes (attempt + i)) = true) →
      outcomes (attempt + j) = .httpError s →
      retryableStatuses.contains s = false →
      (retryGo outcomes fuel attempt last waits).1 = .error (.http s) := by
  intro j
  induction j with
  | zero =>
    intro fuel attempt last waits s hj _ hout hnr
    match fuel, hj with
    | fuel + 1, _ =>
      simp only [Nat.add_zero] at hout
      have hmem : s ∉ retryableStatuses := by simpa using hnr
      simp [retryGo, hout, hmem]
  | succ j ih =>
    intro fuel attempt last waits s hj hret hout hnr
    match fuel, hj with
    | fuel + 1, hj =>
      have h0 : isRetryable (outcomes (attempt + 0)) = true := hret 0 (Nat.succ_pos j)
      simp only [Nat.add_zero] at h0
      have hj' : j < fuel := Nat.lt_of_succ_lt_succ hj
      have hret' : ∀ i, i < j → isRetryable (outcomes (attempt + 1 + i)) = true := by
        intro i hi
        have := hret (i + 1) (Nat.succ_lt_succ hi)
        have harg : attempt + (i + 1) = attempt + 1 + i := by omega
        rwa [harg] at this
      have hout' : outcomes (attempt + 1 + j) = .httpError s := by
        have harg : attempt + (j + 1) = attempt + 1 + j := by omega
        rwa [harg] at hout
      cases hoc : outcomes attempt with
      | success r' => rw [hoc] at h0; simp [isRetryable] at h0
      | httpError s' =>
        rw [hoc] at h0
        simp only [isRetryable] at h0
        simp only [retryGo, hoc, h0, if_true]
        exact ih fuel (attempt + 1) _ _ s hj' hret' hout' hnr
      | otherError m =>
        simp only [retryGo, hoc]
        split
        · exact ih fuel (attempt + 1) _ _ s hj' hret' hout' hnr
        · exact ih fuel (attempt + 1) _ _ s hj' hret' hout' hnr

lemma retryGo_waits {α : Type} (outcomes : Nat → AttemptOutcome α) :
    ∀ (fuel attempt : Nat) (last : Option FetchErr) (waits : List Nat),
      attempt + fuel = MAX_RETRIES →
      waits.length = attempt →
      (∀ i w, waits[i]? = some w → w = RETRY_DELAY_BASE * 2 ^ i) →
      ∀ i w, ((retryGo outcomes fuel attempt last waits).2)[i]? = some w →
        w = RETRY_DELAY_BASE * 2 ^ i := by
  intro fuel
  induction fuel with
  | zero =>
    intro attempt last waits _ _ hw i w hget
    exact hw i w hget
  | succ fuel ih =>
    intro attempt last waits htot hlen hw i w hget
    have hext : ∀ i w, (waits ++ [RETRY_DELAY_BASE * 2 ^ attempt])[i]? = some w →
        w = RETRY_DELAY_BASE * 2 ^ i := by
      intro i w h
      rcases Nat.lt_or_ge i waits.length with hi | hi
      · rw [List.getElem?_append_left hi] at h
        exact hw i w h
      · have hi2 : i < waits.length + 1 := by
          by_contra hcon
          push_neg at hcon
          rw [List.getElem?_eq_none (by simpa using hcon)] at h
          exact Option.noConfusion h
        have hieq : i = waits.length := by omega
        subst hieq
        rw [List.getElem?_append_right (Nat.le_refl _)] at h
        simp at h
        rw [← h, hlen]
    cases hoc : outcomes attempt with
    | success r =>
      simp only [retryGo, hoc] at hget
      exact hw i w hget
    | httpError s =>
      cases hc : retryableStatuses.contains s with
      | true =>
        simp only [retryGo, hoc, hc, if_true] at hget
        refine ih (attempt + 1) _ _ (by omega) (by simp [hlen]) hext i w hget
      | false =>
        simp only [retryGo, hoc, hc, Bool.false_eq_true, if_false] at hget
        exact hw i w hget
    | otherError m =>
      by_cases hc : attempt < MAX_RETRIES - 1
      · simp only [retryGo, hoc, hc, if_true] at hget
        refine ih (attempt + 1) _ _ (by omega) (by simp [hlen]) hext i w hget
      · simp only [retryGo, hoc, hc, if_false] at hget
        have hfuel : fuel = 0 := by
          simp only [MAX_RETRIES] at htot hc ⊢
          omega
        subst hfuel
        simp only [retryGo] at hget
        exact hw i w hget

instance instDecEqExcept {ε α : Type} [DecidableEq ε] [DecidableEq α] :
    DecidableEq (Except ε α) := fun x y =>
  match x, y with
  | .ok a, .ok b => decidable_of_iff (a = b) (by simp)
  | .error a, .error b => decidable_of_iff (a = b) (by simp)
  | .ok _, .error _ => isFalse (fun hc => Except.noConfusion hc)
  | .error _, .ok _ => isFalse (fun hc => Except.noConfusion hc)

/-- A pandas DataFrame as the pipeline uses it: a list of column labels
and rows of cells aligned positionally with the labels.  A cell holds
`none` for a pandas null (NaN / None) and `some s` for the string `s`. -/
structure Frame where
  cols : List String
  rows : List (List (Option String))
deriving DecidableEq

/-- One `team_sheets` entry of a group configuration: `team`,
`department`, and the optional `sheet_id` (absent or empty means the
team is skipped). -/
structure TeamSheet where
  team : String
  department : String
  sheet_id : Option String
deriving DecidableEq

/-- One `aggregated_views` entry: optional display `name`, optional
pinned `department`, optional `sheet_name`, the destination `table_id`,
and the raw-to-canonical column mapping `columns`. -/
structure View where
  name : Option String
  department : Option String
  sheet_name : Option String
  table_id : String
  columns : List (String × String)
deriving DecidableEq

/-- Emptiness of a string via its character list (kernel-reducible). -/
def strEmpty (s : String) : Bool := s.toList.isEmpty

/-- Python falsiness of an optional string config value (`not x` is true
for a missing key and for the empty string). -/
def falsyStr : Option String → Bool
  | none => true
  | some s => strEmpty s

/-- Drop `ps` from the front of a character list when it is a prefix. -/
def dropPrefixChars : List Char → List Char → Option (List Char)
  | l, [] => some l
  | [], _ :: _ => none
  | c :: l, p :: ps => if c = p then dropPrefixChars l ps else none

/-- Python `str.replace` on character lists: scan left to right, replace
each non-overlapping occurrence of `p :: ps` by `repl`.  Structurally
recursive on a fuel that starts at the string length; every step consumes
at least one character, so the fuel never runs out. -/
def replaceListChars (p : Char) (ps repl : List Char) : Nat → List Char → List Char
  | 0, l => l
  | _ + 1, [] => []
  | fuel + 1, c :: l =>
    if c = p then
      match dropPrefixChars l ps with
      | some rest => repl ++ replaceListChars p ps repl fuel rest
      | none => c :: replaceListChars p ps repl fuel l
    else
      c :: replaceListChars p ps repl fuel l

/-- Python `str.replace(old, new)` (all occurrences, left to right),
as used on `table_id` in `get_table_name`. -/
def pyReplace (s pat repl : String) : String :=
  match pat.toList with
  | [] => s
  | p :: ps => String.mk (replaceListChars p ps repl.toList s.toList.length s.toList)

/-- `get_table_prefix` from `src/main.py`: maps the department to the
table-name prefix, defaulting to `"unknown"`. -/
def getTablePrefix (department : String) : String :=
  if department = "Paid Media" then "performance"
  else if department = "Paid Content" then "content"
  else "unknown"

/-- `get_table_name` from `src/main.py`: with prefixing disabled returns
`table_id` unchanged; otherwise removes every occurrence of
`"performance_"` and then of `"content_"` from `table_id` and prepends
the department's prefix. -/
def get_table_name (view : View) (department : String)
    (use_department_prefixes : Bool) : String :=
  if !use_department_prefixes then view.table_id
  else
    let pfx := getTablePrefix department
    let base_table_id := pyReplace (pyReplace view.table_id "performance_" "") "content_" ""
    pfx ++ "_" ++ base_table_id

/-- The Python regex `^\s*$` character class `\s` (space, tab, newline,
carriage return, form feed, vertical tab). -/
def isWsChar (c : Char) : Bool :=
  c = ' ' || c = '\t' || c = '\n' || c = '\r' || c = Char.ofNat 12 || c = Char.ofNat 11

/-- A string matching `^\s*$`: empty or whitespace-only. -/
def isWsOnly (s : String) : Bool := s.toList.all isWsChar

/-- The sentinel replacement
`df[col].replace(["nichts gefunden", "#VALUE!"], None)` applied to one
cell. -/
def cleanSentinelCell : Option String → Option String
  | none => none
  | some s => if s = "nichts gefunden" || s = "#VALUE!" then none else some s

/-- The whitespace replacement `df.replace(r'^\s*$', None, regex=True)`
applied to one cell. -/
def cleanWsCell : Option String → Option String
  | none => none
  | some s => if isWsOnly s then none else some s

/-- Apply a cell transformation to every cell of a frame. -/
def mapCells (f : Option String → Option String) (df : Frame) : Frame :=
  { cols := df.cols, rows := df.rows.map (List.map f) }

/-- The three metadata columns added by the normalizer
(`googlesheet_name`, `department`, `import_timestamp`). -/
def addMetadata (df : Frame) (team department ts : String) : Frame :=
  { cols := df.cols ++ ["googlesheet_name", "department", "import_timestamp"],
    rows := df.rows.map
      (fun r => r ++ [some ("Strang " ++ team), some department, some ts]) }

/-- `df.rename(columns=valid_mappings)`: each column label present as a
key of the mapping is replaced by its mapped name; other labels are kept
(the source pre-filters the mapping to columns that exist, which is the
same per-label behaviour). -/
def renameCols (df : Frame) (column_mappings : List (String × String)) : Frame :=
  { cols := df.cols.map (fun c =>
      match column_mappings.lookup c with
      | some v => v
      | none => c),
    rows := df.rows }

/-- `df.dropna(how='all')`: keep only rows with at least one non-null
cell. -/
def dropAllNullRows (df : Frame) : Frame :=
  { cols := df.cols, rows := df.rows.filter (fun r => r.any (fun v => v.isSome)) }

/-- `df.empty` for our frames: no rows or no columns. -/
def frameEmpty (df : Frame) : Bool := df.rows.isEmpty || df.cols.isEmpty

/-- `process_team_sheet_from_gcs` from `src/main.py`.  `fetchCsv` is the
outcome of downloading the blob and parsing it with `pd.read_csv` (an
exception there is caught and turned into `None`).  On a successfully
parsed non-empty frame: add metadata columns, rename mapped columns,
replace sentinel tokens with null, replace whitespace-only values with
null, and drop wholly-null rows. -/
def process_team_sheet_from_gcs (fetchCsv : Except String Frame)
    (team_sheet : TeamSheet) (ts : String)
    (column_mappings : List (String × String)) : Option Frame :=
  match fetchCsv with
  | .error _ => none
  | .ok df0 =>
    if frameEmpty df0 then none
    else
      some (dropAllNullRows (mapCells cleanWsCell (mapCells cleanSentinelCell
        (renameCols (addMetadata df0 team_sheet.team team_sheet.department ts)
          column_mappings))))

/-- The union of column sets accumulated left to right in first-seen
order, as `pd.concat` (outer join, `sort=False`) builds the merged
column index. -/
def unionColsAux : List String → List Frame → List String
  | acc, [] => acc
  | acc, f :: fs =>
    unionColsAux (acc ++ f.cols.filter (fun c => decide (c ∉ acc))) fs

/-- Merged column list of `pd.concat(frames)`. -/
def unionCols (frames : List Frame) : List String := unionColsAux [] frames

/-- The value a reindexed row takes in column `c`: the row's own value
when its frame has column `c`, else null. -/
def lookupCell (cols : List String) (row : List (Option String)) (c : String) :
    Option String :=
  ((cols.zip row).lookup c).getD none

/-- Align one row of a source frame with the merged column list; columns
the source frame lacks are filled with null, as `pd.concat`'s outer join
does. -/
def reindexRow (f : Frame) (row : List (Option String)) (ucols : List String) :
    List (Option String) :=
  ucols.map (lookupCell f.cols row)

/-- Rows of the merged frame, in input order. -/
def concatRowsAux (ucols : List String) :
    List (List (Option String)) → List Frame → List (List (Option String))
  | acc, [] => acc
  | acc, f :: fs =>
    concatRowsAux ucols (acc ++ f.rows.map (fun row => reindexRow f row ucols)) fs

/-- `pd.concat(all_team_data, ignore_index=True)` from
`process_data_group`: outer-join concatenation of the frames. -/
def concatFrames (frames : List Frame) : Frame :=
  { cols := unionCols frames,
    rows := concatRowsAux (unionCols frames) [] frames }

/-- `str()` conversion `df.astype(str)` performs on a cell: pandas
renders a null object cell as the text `"None"`. -/
def stringifyCell : Option String → String
  | none => "None"
  | some s => s

/-- The cell cleansing `upload_to_bigquery` performs before staging:
`astype(str)`, then `replace(r'^\s*$', None, regex=True)`, then
`replace(["None", "nan"], None)`. -/
def cleanUploadCell (v : Option String) : Option String :=
  let s := stringifyCell v
  if isWsOnly s then none
  else if s = "None" || s = "nan" then none
  else some s

/-- The staged frame `upload_to_bigquery` writes to GCS as JSONL. -/
def cleanFrameForUpload (df : Frame) : Frame :=
  { cols := df.cols, rows := df.rows.map (List.map cleanUploadCell) }

/-- `upload_to_bigquery` from `src/main.py`.  The pure cleansing is kept;
GCS staging, dataset creation and the load job are the `loadOutcome`
oracle (its `.error` case is the function's catch-all `except`, which
returns an error string instead of raising).  Returns the result string
and the staged frame. -/
def upload_to_bigquery (loadOutcome : Frame → Except String Nat) (df : Frame)
    (table_id project_id dataset_id : String) : String × Frame :=
  let staged := cleanFrameForUpload df
  (match loadOutcome staged with
   | .ok n =>
     "Loaded " ++ toString n ++ " rows into " ++ project_id ++ "." ++
       dataset_id ++ "." ++ table_id
   | .error e => "Error uploading to BigQuery: " ++ e,
   staged)

/-- The external services `process_data_group` talks to, as oracles:
`exportSheet` is `export_sheet_to_gcs_with_retry` at the call boundary
(sheet id to GCS blob name, or the exception it raises after retries);
`fetchCsv` is the GCS download + `pd.read_csv` step inside
`process_team_sheet_from_gcs`; `load` is the staging + load-job part of
`upload_to_bigquery`; `ts` is the import timestamp of this run. -/
structure GroupEnv where
  exportSheet : String → Except String String
  fetchCsv : String → Except String Frame
  load : Frame → Except String Nat
  ts : String

/-- One group entry of `config.json`: `enabled` and
`use_department_prefixes` default to true when absent. -/
structure GroupConfig where
  enabled : Option Bool
  use_department_prefixes : Option Bool
  dataset_id : Option String
  team_sheets : List TeamSheet
  aggregated_views : List View

/-- The per-team loop of `process_data_group`: skip teams without a
usable `sheet_id`, export each remaining team's sheet (an exception is
caught and the team dropped), normalize it, and collect the non-empty
frames in team order. -/
def collectTeams (genv : GroupEnv) (column_mappings : List (String × String))
    (teams : List TeamSheet) : List Frame :=
  teams.foldl (fun acc team =>
    match team.sheet_id with
    | none => acc
    | some sid =>
      if isWsOnly sid then acc
      else
        match genv.exportSheet sid with
        | .error _ => acc
        | .ok blob =>
          match process_team_sheet_from_gcs (genv.fetchCsv blob) team genv.ts
              column_mappings with
          | none => acc
          | some df => if frameEmpty df then acc else acc ++ [df]) []

/-- `view.get('name', 'Unknown view')`. -/
def viewDisplayName (view : View) : String := view.name.getD "Unknown view"

/-- The body of `process_data_group`'s department loop: one WorkUnit
(view, department).  Returns the result strings appended for this unit
together with the list of destination tables for which
`upload_to_bigquery` was invoked. -/
def processDept (genv : GroupEnv) (group_name project_id dataset_id : String)
    (use_department_prefixes : Bool) (team_sheets : List TeamSheet) (view : View)
    (department : String) : List String × List String :=
  let department_team_sheets := team_sheets.filter
    (fun t => t.department == department)
  if department_team_sheets.isEmpty then
    (["No teams found for " ++ department ++ " in " ++ group_name], [])
  else
    let table_id := get_table_name view department use_department_prefixes
    let sheet_name := view.sheet_name.getD ""
    if strEmpty sheet_name then
      (["No sheet name for " ++ viewDisplayName view], [])
    else
      let column_mappings := view.columns
      let all_team_data := collectTeams genv column_mappings department_team_sheets
      if all_team_data.isEmpty then
        (["No data collected for " ++ viewDisplayName view ++ " - " ++ department],
         [])
      else
        let combined_df := concatFrames all_team_data
        let up := upload_to_bigquery genv.load combined_df table_id project_id
          dataset_id
        ([up.1], [table_id])

/-- The body of `process_data_group`'s view loop: a view pinned to a
department is processed for that department only, otherwise for every
department appearing in the group's team sheets. -/
def processView (genv : GroupEnv) (group_name project_id dataset_id : String)
    (use_department_prefixes : Bool) (team_sheets : List TeamSheet) (view : View) :
    List String × List String :=
  let departments := match view.department with
    | some d => [d]
    | none => (team_sheets.map (fun t : TeamSheet => t.department)).eraseDups
  departments.foldl (fun acc d =>
    let r := processDept genv group_name project_id dataset_id
      use_department_prefixes team_sheets view d
    (acc.1 ++ r.1, acc.2 ++ r.2)) ([], [])

/-- `process_data_group` from `src/main.py`: skip disabled groups, require
`dataset_id`, then process every aggregated view.  Every failure inside
is caught at some level, so the function always returns its result
list (paired here with the load invocations it made). -/
def process_data_group (genv : GroupEnv) (group_name project_id : String)
    (group_config : GroupConfig) : List String × List String :=
  if !(group_config.enabled.getD true) then
    (["Group " ++ group_name ++ " is disabled"], [])
  else
    let use_department_prefixes := group_config.use_department_prefixes.getD true
    if falsyStr group_config.dataset_id then
      (["No dataset_id specified for group " ++ group_name], [])
    else
      let dataset_id := group_config.dataset_id.getD ""
      group_config.aggregated_views.foldl (fun acc view =>
        let r := processView genv group_name project_id dataset_id
          use_department_prefixes group_config.team_sheets view
        (acc.1 ++ r.1, acc.2 ++ r.2)) ([], [])

/-- A top-level entry of the parsed `config.json`: its key, whether the
value is a dict, whether the dict has the `team_sheets` and
`aggregated_views` keys, and the group configuration it holds when it is
a data group. -/
structure ConfigItem where
  key : String
  isDict : Bool
  hasTeamSheets : Bool
  hasAggViews : Bool
  groupCfg : GroupConfig

/-- The parsed `config.json`. -/
structure ConfigDoc where
  project_id : Option String
  staging_bucket : Option String
  items : List ConfigItem

/-- The run environment of `import_team_capacity`: the `CONFIG_GROUP`
variable, the outcome of reading `config.json`, the outcome of
initializing credentials and clients, and the service oracles shared by
the groups. -/
structure Env where
  targetGroup : Option String
  configRead : Except String ConfigDoc
  credsInit : Except String Unit
  genv : GroupEnv

/-- `key != target_group` for a set target group (skip non-matching
groups); no filtering when `CONFIG_GROUP` is unset. -/
def skipForTarget (targetGroup : Option String) (key : String) : Bool :=
  match targetGroup with
  | some t => key != t
  | none => false

/-- The warning appended when zero groups were processed. -/
def noGroupsMsg (targetGroup : Option String) : String :=
  "No groups processed. Target group: " ++ targetGroup.getD "all"

/-- `import_team_capacity` from `src/main.py`.  Reading the config or
initializing credentials can fail; each failure is caught and turned into
a single-element result list.  Otherwise every dict-valued config entry
with `team_sheets` and `aggregated_views` (and matching `CONFIG_GROUP`,
when set) is processed and its results appended.  The value is the
result list paired with the keys of the groups processed; the `.error`
case of the return type is the outer `except`, which no branch
reaches. -/
def import_team_capacity (env : Env) : Except String (List String × List String) :=
  match env.configRead with
  | .error _ => .ok (["Failed to read config file"], [])
  | .ok config =>
    if falsyStr config.project_id || falsyStr config.staging_bucket then
      .ok (["Missing project_id or staging_bucket in config"], [])
    else
      let project_id := config.project_id.getD ""
      match env.credsInit with
      | .error _ => .ok (["Failed to initialize credentials"], [])
      | .ok _ =>
        let step := config.items.foldl (fun (acc : List String × List String) item =>
          if item.key == "project_id" || item.key == "staging_bucket" ||
              !item.isDict then acc
          else if item.hasTeamSheets && item.hasAggViews then
            if skipForTarget env.targetGroup item.key then acc
            else
              let gr := process_data_group env.genv item.key project_id item.groupCfg
              (acc.1 ++ gr.1, acc.2 ++ [item.key])
          else acc) ([], [])
        let finalResults :=
          if step.2.isEmpty then step.1 ++ [noGroupsMsg env.targetGroup] else step.1
        .ok (finalResults, step.2)

lemma mem_unionColsAux :
    ∀ (fs : List Frame) (acc : List String) (c : String),
      c ∈ unionColsAux acc fs ↔ c ∈ acc ∨ ∃ f ∈ fs, c ∈ f.cols := by
  intro fs
  induction fs with
  | nil => intro acc c; simp [unionColsAux]
  | cons f fs ih =>
    intro acc c
    simp only [unionColsAux]
    rw [ih]
    simp only [List.mem_append, List.mem_filter, List.mem_cons, decide_eq_true_eq]
    constructor
    · rintro (((h | ⟨h, _⟩) | ⟨g, hg, hc⟩))
      · exact Or.inl h
      · exact Or.inr ⟨f, Or.inl rfl, h⟩
      · exact Or.inr ⟨g, Or.inr hg, hc⟩
    · rintro (h | ⟨g, (rfl | hg), hc⟩)
      · exact Or.inl (Or.inl h)
      · by_cases ha : c ∈ acc
        · exact Or.inl (Or.inl ha)
        · exact Or.inl (Or.inr ⟨hc, ha⟩)
      · exact Or.inr ⟨g, hg, hc⟩

lemma mem_concatRowsAux :
    ∀ (fs : List Frame) (acc : List (List (Option String))) (ucols : List String)
      (r : List (Option String)),
      r ∈ concatRowsAux ucols acc fs ↔
        r ∈ acc ∨ ∃ f ∈ fs, ∃ row ∈ f.rows, reindexRow f row ucols = r := by
  intro fs
  induction fs with
  | nil => intro acc ucols r; simp [concatRowsAux]
  | cons f fs ih =>
    intro acc ucols r
    simp only [concatRowsAux]
    rw [ih]
    simp only [List.mem_append, List.mem_map, List.mem_cons]
    constructor
    · rintro ((h | ⟨row, hrow, heq⟩) | ⟨g, hg, row, hrow, heq⟩)
      · exact Or.inl h
      · exact Or.inr ⟨f, Or.inl rfl, row, hrow, heq⟩
      · exact Or.inr ⟨g, Or.inr hg, row, hrow, heq⟩
    · rintro (h | ⟨g, (rfl | hg), row, hrow, heq⟩)
      · exact Or.inl (Or.inl h)
      · exact Or.inl (Or.inr ⟨row, hrow, heq⟩)
      · exact Or.inr ⟨g, hg, row, hrow, heq⟩

lemma lookup_zip_none :
    ∀ (cols : List String) (row : List (Option String)) (c : String),
      c ∉ cols → List.lookup c (cols.zip row) = none := by
  intro cols
  induction cols with
  | nil => intro row c _; simp
  | cons a cols ih =>
    intro row c h
    cases row with
    | nil => simp
    | cons v row =>
      have hne : (c == a) = false := by
        simp only [beq_eq_false_iff_ne, ne_eq]
        intro hca
        exact h (by simp [hca])
      simp only [List.zip_cons_cons, List.lookup, hne]
      exact ih row c (fun hc => h (List.mem_cons_of_mem _ hc))

/-- C1: a fetch that fails with retryable errors on attempts `0..k-1`
(`k < MAX_RETRIES`) and succeeds on attempt `k` returns the success; a
fetch whose five attempts all fail retryably raises the last attempt's
error and never returns a success; a non-retryable `HttpError` on
attempt `j` (after retryable failures) is raised immediately, whatever
the later attempts would have produced.  Both retry wrappers
(`fetch_sheet_with_retry`, `export_sheet_to_gcs_with_retry`) have the
behaviour. -/
theorem c1_fetch_retry_contract (α : Type) (outcomes : Nat → AttemptOutcome α) :
    (∀ k r, k < MAX_RETRIES → (∀ i, i < k → isRetryable (outcomes i) = true) →
      outcomes k = .success r →
      (fetch_sheet_with_retry outcomes).1 = .ok (some r) ∧
      (export_sheet_to_gcs_with_retry outcomes).1 = .ok (some r)) ∧
    ((∀ i, i < MAX_RETRIES → isRetryable (outcomes i) = true) →
      (fetch_sheet_with_retry outcomes).1 =
        .error (errOf (outcomes (MAX_RETRIES - 1))) ∧
      (export_sheet_to_gcs_with_retry outcomes).1 =
        .error (errOf (outcomes (MAX_RETRIES - 1)))) ∧
    (∀ j s, j < MAX_RETRIES → (∀ i, i < j → isRetryable (outcomes i) = true) →
      outcomes j = .httpError s → retryableStatuses.contains s = false →
      (fetch_sheet_with_retry outcomes).1 = .error (.http s) ∧
      (export_sheet_to_gcs_with_retry outcomes).1 = .error (.http s)) := by
  refine ⟨?_, ?_, ?_⟩
  · intro k r hk hret hsucc
    have h := retryGo_success outcomes k MAX_RETRIES 0 none [] r hk
      (fun i hi => by simpa using hret i hi) (by simpa using hsucc)
    exact ⟨h, h⟩
  · intro hall
    have h := retryGo_exhaust outcomes MAX_RETRIES 0 none []
      (fun i hi => by simpa using hall i hi)
    rw [show (0 : Nat) + (MAX_RETRIES - 1) = MAX_RETRIES - 1 by omega] at h
    rw [if_neg (by simp [MAX_RETRIES])] at h
    exact ⟨h, h⟩
  · intro j s hj hret hout hnr
    have h := retryGo_nonretryable outcomes j MAX_RETRIES 0 none [] s hj
      (fun i hi => by simpa using hret i hi) (by simpa using hout) hnr
    exact ⟨h, h⟩

/-- Witness for C1: two retryable 503s then a success yields the success;
five straight 503s yield the 503 as the final error; a 404 on attempt 1
fails immediately with the 404. -/
theorem c1_fetch_retry_contract_witness :
    (fetch_sheet_with_retry
      ((fun i => if i < 2 then .httpError 503 else .success 7) :
        Nat → AttemptOutcome Nat)).1 = .ok (some 7) ∧
    (fetch_sheet_with_retry
      ((fun _ => .httpError 503) : Nat → AttemptOutcome Nat)).1 =
      .error (.http 503) ∧
    (fetch_sheet_with_retry
      ((fun i => if i = 0 then .httpError 503 else .httpError 404) :
        Nat → AttemptOutcome Nat)).1 = .error (.http 404) :=
  ⟨((c1_fetch_retry_contract Nat _).1 2 7 (by decide) (by decide) (by decide)).1,
   ((c1_fetch_retry_contract Nat _).2.1 (by decide)).1,
   ((c1_fetch_retry_contract Nat _).2.2 1 404 (by decide) (by decide) (by decide)
     (by decide)).1⟩

/-- C2: merging a non-empty list of normalized frames (`pd.concat`)
yields a frame whose column set is exactly the union of the inputs'
column sets; every output row is aligned with the full merged column
list (one cell per merged column); and a row originating in a frame that
lacks some merged column carries the null cell in that column's
position. -/
theorem c2_merge_union (frames : List Frame) (hne : frames ≠ []) :
    (∀ c, c ∈ (concatFrames frames).cols ↔ ∃ f ∈ frames, c ∈ f.cols) ∧
    (∀ r ∈ (concatFrames frames).rows, r.length = (concatFrames frames).cols.length) ∧
    (∀ f ∈ frames, ∀ row ∈ f.rows,
      reindexRow f row (unionCols frames) ∈ (concatFrames frames).rows ∧
      ∀ (i : Nat) (c : String), (unionCols frames)[i]? = some c → c ∉ f.cols →
        (reindexRow f row (unionCols frames))[i]? = some none) := by
  refine ⟨?_, ?_, ?_⟩
  · intro c
    show c ∈ unionColsAux [] frames ↔ _
    rw [mem_unionColsAux]
    simp
  · intro r hr
    have hmem := (mem_concatRowsAux frames [] (unionCols frames) r).mp hr
    simp only [List.not_mem_nil, false_or] at hmem
    rcases hmem with ⟨f, _, row, _, heq⟩
    rw [← heq]
    simp [reindexRow, concatFrames]
  · intro f hf row hrow
    constructor
    · exact (mem_concatRowsAux frames [] (unionCols frames) _).mpr
        (Or.inr ⟨f, hf, row, hrow, rfl⟩)
    · intro i c hget hc
      show (List.map (lookupCell f.cols row) (unionCols frames))[i]? = some none
      rw [List.getElem?_map (lookupCell f.cols row) (unionCols frames) i, hget]
      simp [lookupCell, lookup_zip_none f.cols row c hc]

/-- Witness for C2: merging a frame with column `a` and a frame with
column `b`, the reindexed first row is one of the merged rows. -/
theorem c2_merge_union_witness :
    reindexRow ⟨["a"], [[some "1"]]⟩ [some "1"]
        (unionCols [⟨["a"], [[some "1"]]⟩, ⟨["b"], [[some "2"]]⟩]) ∈
      (concatFrames [⟨["a"], [[some "1"]]⟩, ⟨["b"], [[some "2"]]⟩]).rows :=
  ((c2_merge_union [⟨["a"], [[some "1"]]⟩, ⟨["b"], [[some "2"]]⟩] (by decide)).2.2
    ⟨["a"], [[some "1"]]⟩ (by decide) [some "1"] (by decide)).1

/-- C3: the orchestrator `import_team_capacity` always returns a result
list (the `.error` branch of its return type is unreachable); an
unreadable config file short-circuits to the single-element list
`["Failed to read config file"]` with no group processed; a credentials
failure (after a well-formed config) short-circuits to
`["Failed to initialize credentials"]` with no group processed; and every
WorkUnit the group processor visits contributes exactly one appended
result entry, whatever its outcome. -/
theorem c3_orchestrator_never_raises (env : Env) :
    (∃ out, import_team_capacity env = .ok out) ∧
    (∀ e, env.configRead = .error e →
      import_team_capacity env = .ok (["Failed to read config file"], [])) ∧
    (∀ config e, env.configRead = .ok config →
      falsyStr config.project_id = false → falsyStr config.staging_bucket = false →
      env.credsInit = .error e →
      import_team_capacity env = .ok (["Failed to initialize credentials"], [])) ∧
    (∀ genv group_name project_id dataset_id use_department_prefixes team_sheets
        view department,
      ((processDept genv group_name project_id dataset_id use_department_prefixes
        team_sheets view department).1).length = 1) := by
  refine ⟨?_, ?_, ?_, ?_⟩
  · cases h : env.configRead with
    | error e =>
      exact ⟨(["Failed to read config file"], []), by simp [import_team_capacity, h]⟩
    | ok config =>
      simp only [import_team_capacity, h]
      split
      · exact ⟨_, rfl⟩
      · cases hc : env.credsInit with
        | error e => exact ⟨_, rfl⟩
        | ok u => exact ⟨_, rfl⟩
  · intro e he
    simp [import_team_capacity, he]
  · intro config e hok h1 h2 hcreds
    simp [import_team_capacity, hok, h1, h2, hcreds]
  · intro genv group_name project_id dataset_id use_department_prefixes team_sheets
      view department
    by_cases h1 : (team_sheets.filter
        (fun t => t.department == department)).isEmpty
    · simp [processDept, h1]
    · by_cases h2 : strEmpty (view.sheet_name.getD "")
      · simp [processDept, h1, h2]
      · by_cases h3 : (collectTeams genv view.columns
            (team_sheets.filter (fun t => t.department == department))).isEmpty
        · simp [processDept, h1, h2, h3]
        · simp [processDept, h1, h2, h3]

/-- Witness for C3: a run whose config read fails returns exactly the
single-element list, with no group processed. -/
theorem c3_orchestrator_never_raises_witness :
    import_team_capacity
      ⟨none, .error "boom", .ok (),
        ⟨fun _ => .error "e", fun _ => .error "e", fun _ => .error "e", "ts"⟩⟩ =
      .ok (["Failed to read config file"], []) :=
  (c3_orchestrator_never_raises _).2.1 "boom" rfl

/-- C4: every row the normalizer outputs has at least one non-null cell
after cleansing; a row all of whose cells are null-equivalent (null,
empty, whitespace-only, or a sentinel token) is dropped by
`dropna(how='all')` and never appears in the output frame. -/
theorem c4_normalizer_drops_null_rows (fetchCsv : Except String Frame)
    (team_sheet : TeamSheet) (ts : String)
    (column_mappings : List (String × String)) (f : Frame)
    (h : process_team_sheet_from_gcs fetchCsv team_sheet ts column_mappings = some f) :
    ∀ row ∈ f.rows, ∃ v ∈ row, v.isSome = true := by
  cases fetchCsv with
  | error e => simp [process_team_sheet_from_gcs] at h
  | ok df0 =>
    simp only [process_team_sheet_from_gcs] at h
    by_cases he : frameEmpty df0
    · rw [if_pos he] at h
      exact absurd h (by simp)
    · rw [if_neg he] at h
      have hf := Option.some.inj h
      subst hf
      intro row hrow
      simp only [dropAllNullRows, List.mem_filter] at hrow
      exact List.any_eq_true.mp hrow.2

/-- Witness for C4: a one-row sheet normalizes to a frame whose row has a
non-null cell. -/
theorem c4_normalizer_drops_null_rows_witness :
    ∃ v ∈ [some "x", some "Strang T", some "D", some "t"], v.isSome = true :=
  c4_normalizer_drops_null_rows (.ok ⟨["A"], [[some "x"]]⟩) ⟨"T", "D", some "s"⟩
    "t" []
    ⟨["A", "googlesheet_name", "department", "import_timestamp"],
      [[some "x", some "Strang T", some "D", some "t"]]⟩
    (by decide) [some "x", some "Strang T", some "D", some "t"] (by decide)

/-- C5 counterexample: the claim states the wait after a retryable
failure at attempt `a` is `base * 2 ^ a` *plus a small random jitter
term*, so that concurrently retrying sources do not all wait the
identical duration.  In the code there is no jitter: two sources that
fail retryably on every attempt (one with 503s, one with 500s) sleep
exactly `[3, 6, 12, 24, 48]` seconds — identical durations, exactly
`RETRY_DELAY_BASE * 2 ^ a` with nothing added. -/
theorem c5_backoff_counterexample :
    (fetch_sheet_with_retry
      ((fun _ => .httpError 503) : Nat → AttemptOutcome Nat)).2 =
      [3, 6, 12, 24, 48] ∧
    (fetch_sheet_with_retry
      ((fun _ => .httpError 500) : Nat → AttemptOutcome Nat)).2 =
      [3, 6, 12, 24, 48] ∧
    [3, 6, 12, 24, 48] = (List.range 5).map (fun a => RETRY_DELAY_BASE * 2 ^ a) := by
  refine ⟨by decide, by decide, by decide⟩

/-- C5 (amended): the `i`-th sleep performed by a retry wrapper is
exactly `RETRY_DELAY_BASE * 2 ^ i` (base 3 seconds, exponential, no
jitter term), for both retry wrappers. -/
theorem c5_backoff_exact (α : Type) (outcomes : Nat → AttemptOutcome α)
    (i w : Nat) :
    ((fetch_sheet_with_retry outcomes).2[i]? = some w →
      w = RETRY_DELAY_BASE * 2 ^ i) ∧
    ((export_sheet_to_gcs_with_retry outcomes).2[i]? = some w →
      w = RETRY_DELAY_BASE * 2 ^ i) := by
  constructor
  all_goals
    intro h
    exact retryGo_waits outcomes MAX_RETRIES 0 none [] rfl rfl
      (by intro j u hj; simp at hj) i w h

/-- Witness for C5 (amended): the third sleep of an always-failing fetch
is 12 = 3 * 2 ^ 2. -/
theorem c5_backoff_exact_witness : (12 : Nat) = RETRY_DELAY_BASE * 2 ^ 2 :=
  (c5_backoff_exact Nat ((fun _ => .httpError 503) : Nat → AttemptOutcome Nat)
    2 12).1 (by decide)

/-- C6: the destination table name is a pure function of the view's
`table_id`, the department, and the prefixing flag — two views agreeing
on `table_id` give the same name for every department and flag, whatever
their other fields are, and `get_table_name` consults no other state. -/
theorem c6_table_name_pure (v1 v2 : View) (department : String)
    (use_department_prefixes : Bool) (h : v1.table_id = v2.table_id) :
    get_table_name v1 department use_department_prefixes =
      get_table_name v2 department use_department_prefixes := by
  unfold get_table_name
  rw [h]

/-- Witness for C6: two views with the same `table_id` but different
names, sheet names and mappings produce the same table name. -/
theorem c6_table_name_pure_witness :
    get_table_name ⟨some "n1", none, none, "t", []⟩ "Paid Media" true =
      get_table_name ⟨none, some "d", some "s", "t", [("a", "b")]⟩ "Paid Media"
        true :=
  c6_table_name_pure ⟨some "n1", none, none, "t", []⟩
    ⟨none, some "d", some "s", "t", [("a", "b")]⟩ "Paid Media" true rfl

/-- C7: a WorkUnit whose team list is non-empty and whose sheet name is
configured, but for which no source yielded a usable frame
(`all_team_data` empty), appends exactly the "No data collected" entry
and performs no warehouse load. -/
theorem c7_no_data_no_load (genv : GroupEnv)
    (group_name project_id dataset_id : String)
    (use_department_prefixes : Bool) (team_sheets : List TeamSheet) (view : View)
    (department : String)
    (hteams : (team_sheets.filter
      (fun t => t.department == department)).isEmpty = false)
    (hsheet : strEmpty (view.sheet_name.getD "") = false)
    (hnone : collectTeams genv view.columns
      (team_sheets.filter (fun t => t.department == department)) = []) :
    processDept genv group_name project_id dataset_id use_department_prefixes
        team_sheets view department =
      (["No data collected for " ++ viewDisplayName view ++ " - " ++ department],
       []) := by
  simp [processDept, hteams, hsheet, hnone]

/-- Witness for C7: a unit with one configured team whose export always
fails collects nothing, reports "No data collected" and invokes no
load. -/
theorem c7_no_data_no_load_witness :
    processDept ⟨fun _ => .error "e", fun _ => .error "e", fun _ => .error "e",
        "ts"⟩ "g" "p" "d" true [⟨"T1", "D1", some "sid"⟩]
      ⟨some "V", none, some "S", "tbl", []⟩ "D1" =
      (["No data collected for V - D1"], []) :=
  c7_no_data_no_load _ "g" "p" "d" true [⟨"T1", "D1", some "sid"⟩]
    ⟨some "V", none, some "S", "tbl", []⟩ "D1" (by decide) (by decide) (by decide)

/-- C9: before staging, `upload_to_bigquery` turns every cell whose
stringified value is exactly `"None"` or `"nan"` — including cells that
legitimately held those literal strings — into a null cell, so they load
as NULL. -/
theorem c9_none_nan_nulled (loadOutcome : Frame → Except String Nat) (df : Frame)
    (table_id project_id dataset_id : String) (i j : Nat)
    (row : List (Option String)) (v : Option String)
    (hrow : df.rows[i]? = some row) (hcell : row[j]? = some v)
    (hv : stringifyCell v = "None" ∨ stringifyCell v = "nan") :
    ∃ rowq,
      ((upload_to_bigquery loadOutcome df table_id project_id dataset_id).2).rows[i]?
        = some rowq ∧ rowq[j]? = some none := by
  have hcv : cleanUploadCell v = none := by
    rcases hv with h | h <;> (simp only [cleanUploadCell, h]; decide)
  refine ⟨row.map cleanUploadCell, ?_, ?_⟩
  · show (df.rows.map (List.map cleanUploadCell))[i]? = some (row.map cleanUploadCell)
    rw [List.getElem?_map (List.map cleanUploadCell) df.rows i, hrow]
    rfl
  · rw [List.getElem?_map cleanUploadCell row j, hcell]
    simp [hcv]

/-- Witness for C9: a cell holding the literal string "None" is staged as
null. -/
theorem c9_none_nan_nulled_witness :
    ∃ rowq,
      ((upload_to_bigquery (fun _ => .error "x") ⟨["a"], [[some "None"]]⟩ "t" "p"
        "d").2).rows[0]? = some rowq ∧ rowq[0]? = some none :=
  c9_none_nan_nulled (fun _ => .error "x") ⟨["a"], [[some "None"]]⟩ "t" "p" "d"
    0 0 [some "None"] (some "None") (by decide) (by decide) (Or.inl (by decide))

/-- C10: with prefixing enabled, `get_table_name` deletes every
occurrence of `"performance_"` and `"content_"` anywhere inside the
configured `table_id` — not only a leading prefix — before prepending the
department's prefix: `"ad_performance_stats"` yields `"<pfx>_ad_stats"`,
and multiple mid-string occurrences are all removed. -/
theorem c10_prefix_removed_everywhere :
    get_table_name ⟨none, none, none, "ad_performance_stats", []⟩ "Paid Media"
        true = "performance_ad_stats" ∧
    get_table_name ⟨none, none, none, "ad_performance_stats", []⟩ "Paid Content"
        true = "content_ad_stats" ∧
    get_table_name ⟨none, none, none, "x_content_y_content_z", []⟩ "Paid Media"
        true = "performance_x_y_z" := by
  refine ⟨by decide, by decide, by decide⟩

end ResourcePlanning
